import Mathlib

/-!
Shallow embedding of the template substitution and coverage aggregation core of
the ShopifyImageAltText repository (src/streamlit_app.py, src/shopify_api.py).

Python strings are modelled as Lean `String`, Python dict keys that may be
absent as `Option`, and Python float arithmetic as exact rational arithmetic
over `ℚ`.  Python's `str.replace`, `str.lower`, `str.split`, `", ".join` and
decimal rendering of integers are modelled by the executable helpers below.
-/

namespace Shopify

/-- The whitespace class used by Python's `str.split()`. -/
def isSpaceChar (c : Char) : Bool :=
  c = ' ' || c = '\t' || c = '\n' || c = '\r'

/-- Model of Python `str.lower` (ASCII case folding). -/
def pyLower (s : String) : String :=
  ⟨s.data.map Char.toLower⟩

/-- Model of Python `sep.join(parts)`. -/
def joinWith (sep : String) : List String → String
  | [] => ""
  | [x] => x
  | x :: y :: xs => x ++ sep ++ joinWith sep (y :: xs)

/-- Word accumulator for Python `str.split()` (splits on runs of whitespace,
dropping empty words). -/
def splitWordsAux : List Char → List Char → List String
  | [], acc => if acc.isEmpty then [] else [⟨acc.reverse⟩]
  | c :: rest, acc =>
    if isSpaceChar c then
      if acc.isEmpty then splitWordsAux rest []
      else (⟨acc.reverse⟩ : String) :: splitWordsAux rest []
    else splitWordsAux rest (c :: acc)

/-- Model of Python `str.split()` with no separator argument. -/
def splitWords (s : String) : List String :=
  splitWordsAux s.data []

/-- Does `pat` occur as a contiguous substring (Python `pat in s`)? -/
def occursIn (pat : List Char) : List Char → Bool
  | [] => pat.isEmpty
  | c :: rest => pat.isPrefixOf (c :: rest) || occursIn pat rest

/-- Fuel-indexed core of Python `str.replace` (replaces all non-overlapping
occurrences scanning left to right); total once `fuel ≥ s.length`. -/
def pyReplaceAux (pat rep : List Char) : Nat → List Char → List Char
  | 0, s => s
  | _ + 1, [] => []
  | fuel + 1, c :: rest =>
    if !pat.isEmpty && pat.isPrefixOf (c :: rest) then
      rep ++ pyReplaceAux pat rep fuel ((c :: rest).drop pat.length)
    else
      c :: pyReplaceAux pat rep fuel rest

/-- Model of Python `s.replace(pat, rep)` for non-empty `pat` (every pattern
substituted in this development is a fixed non-empty placeholder literal). -/
def pyReplace (s pat rep : String) : String :=
  ⟨pyReplaceAux pat.data rep.data s.data.length s.data⟩

/-- Fuel-indexed decimal digit string (most significant digit first). -/
def decReprAux : Nat → Nat → List Char
  | 0, _ => []
  | fuel + 1, n =>
    if n < 10 then [Nat.digitChar n]
    else decReprAux fuel (n / 10) ++ [Nat.digitChar (n % 10)]

/-- Model of Python `str(n)` for a non-negative integer. -/
def decRepr (n : Nat) : String :=
  ⟨decReprAux (n + 1) n⟩

/-- Numeric value of a decimal digit character. -/
def digitVal (c : Char) : Nat :=
  c.toNat - '0'.toNat

/-- Value of a most-significant-first decimal digit string. -/
def decVal (l : List Char) : Nat :=
  l.foldl (fun a c => 10 * a + digitVal c) 0

/- ------------------------------------------------------------------
Data model (src/shopify_api.py `fetch_products`, src/streamlit_app.py).
Dict keys read through `.get(key, default)` that some code paths never
populate are modelled as `Option`.
------------------------------------------------------------------ -/

/-- A product variant as stored by `fetch_products` (id, title, price only:
the GraphQL query requests no `sku` field). -/
structure Variant where
  id : String
  title : String
  price : String
deriving Repr, DecidableEq

/-- A product image record as held in the session working set. -/
structure PImage where
  id : String
  src : String
  alt : String
  applied_template : Option String
  applied_filename_template : Option String
  filename : Option String
deriving Repr, DecidableEq

/-- A named template (either pool; distinguished only by which renderer mode
is applied). -/
structure Template where
  id : String
  name : String
  template : String
deriving Repr, DecidableEq

/-- A product dict from the session working set.  `title`, `vendor`, `type`,
`tags`, `store` and `skus` are read with `.get`; `skus` additionally has its
presence tested with `"skus" in product`, so `none` models an absent key. -/
structure Product where
  id : String
  title : Option String
  description : String
  vendor : Option String
  type : Option String
  tags : Option (List String)
  store : Option String
  skus : Option (List String)
  variants : List Variant
  images : List PImage
deriving Repr, DecidableEq

/-- A GraphQL image node as consumed by `fetch_products`. -/
structure FetchedImage where
  id : String
  url : String
  altText : Option String
deriving Repr, DecidableEq

/-- A GraphQL variant node as consumed by `fetch_products`:
only `id`, `title`, `price` are requested by the query. -/
structure FetchedVariant where
  id : String
  title : String
  price : String
deriving Repr, DecidableEq

/-- The product record built by `fetch_products` (src/shopify_api.py lines
141-175): images get `alt = altText or ""` and `applied_template = None`;
no `skus`, `store`, `filename` or `applied_filename_template` key is set. -/
def mkFetchedProduct (pid ptitle : String) (pdescription : Option String)
    (pvendor pproductType : String) (ptags : List String)
    (variantNodes : List FetchedVariant) (imageNodes : List FetchedImage) :
    Product where
  id := pid
  title := some ptitle
  description := pdescription.getD ""
  vendor := some pvendor
  type := some pproductType
  tags := some ptags
  store := none
  skus := none
  variants := variantNodes.map fun n => { id := n.id, title := n.title, price := n.price }
  images := imageNodes.map fun n =>
    { id := n.id, src := n.url, alt := n.altText.getD "",
      applied_template := none, applied_filename_template := none,
      filename := none }

/- ------------------------------------------------------------------
Variable resolution and template rendering
(src/streamlit_app.py lines 134-280).
------------------------------------------------------------------ -/

/-- The fixed color vocabulary of `extract_color_from_title`
(src/streamlit_app.py lines 138-142). -/
def common_colors : List String :=
  ["black", "white", "red", "blue", "green", "yellow", "purple", "pink",
   "orange", "brown", "grey", "gray", "silver", "gold", "beige", "navy",
   "teal", "cream", "ivory", "turquoise", "violet", "magenta", "indigo"]

/-- `extract_color_from_title` (src/streamlit_app.py lines 135-149): the first
word of the lower-cased title that belongs to `common_colors`, else `""`. -/
def extract_color_from_title (title : String) : String :=
  ((splitWords (pyLower title)).find? (fun w => w ∈ common_colors)).getD ""

/-- `product.get(key, "")` for an optional string field. -/
def getS (v : Option String) : String :=
  v.getD ""

/-- `product.get("tags", [])`. -/
def getTags (p : Product) : List String :=
  p.tags.getD []

/-- `", ".join(product.get("skus", [])) if "skus" in product else ""`. -/
def skuDescriptive (p : Product) : String :=
  match p.skus with
  | some l => joinWith ", " l
  | none => ""

/-- `"-".join(product.get("skus", [])) if "skus" in product else ""`
(filename mode; note: hyphen join, no lower-casing). -/
def skuFilename (p : Product) : String :=
  match p.skus with
  | some l => joinWith "-" l
  | none => ""

/-- The `variables` dict of `preview_template` (src/streamlit_app.py lines
160-172), in Python dict insertion order. -/
def previewVars (p : Product) (image_index : Nat) (random_id : String) :
    List (String × String) :=
  [("{title}", getS p.title),
   ("{vendor}", getS p.vendor),
   ("{type}", getS p.type),
   ("{tags}", joinWith ", " (getTags p)),
   ("{store}", getS p.store),
   ("{sku}", skuDescriptive p),
   ("{color}", extract_color_from_title (getS p.title)),
   ("{brand}", getS p.vendor),
   ("{category}", getS p.type),
   ("{index}", decRepr (image_index + 1)),
   ("{id}", random_id)]

/-- The `variables` dict of `apply_template_to_image` (src/streamlit_app.py
lines 198-210); written out separately because the source writes it out
separately. -/
def applyAltVars (p : Product) (image_index : Nat) (random_id : String) :
    List (String × String) :=
  [("{title}", getS p.title),
   ("{vendor}", getS p.vendor),
   ("{type}", getS p.type),
   ("{tags}", joinWith ", " (getTags p)),
   ("{store}", getS p.store),
   ("{sku}", skuDescriptive p),
   ("{color}", extract_color_from_title (getS p.title)),
   ("{brand}", getS p.vendor),
   ("{category}", getS p.type),
   ("{index}", decRepr (image_index + 1)),
   ("{id}", random_id)]

/-- The `variables` dict of `apply_filename_template_to_image`
(src/streamlit_app.py lines 246-258): values are slug-normalized per field
(`.replace(" ", "-").lower()` on scalar fields, `"-".join(...).lower()` on
tags, `"-".join(...)` on skus, color / index / id inserted untouched). -/
def filenameVars (p : Product) (image_index : Nat) (random_id : String) :
    List (String × String) :=
  [("{title}", pyLower (pyReplace (getS p.title) " " "-")),
   ("{vendor}", pyLower (pyReplace (getS p.vendor) " " "-")),
   ("{type}", pyLower (pyReplace (getS p.type) " " "-")),
   ("{tags}", pyLower (joinWith "-" (getTags p))),
   ("{store}", pyLower (pyReplace (getS p.store) " " "-")),
   ("{sku}", skuFilename p),
   ("{color}", extract_color_from_title (getS p.title)),
   ("{brand}", pyLower (pyReplace (getS p.vendor) " " "-")),
   ("{category}", pyLower (pyReplace (getS p.type) " " "-")),
   ("{index}", decRepr (image_index + 1)),
   ("{id}", random_id)]

/-- The substitution loop `for var, value in variables.items():
s = s.replace(var, value)` shared by all three rendering functions. -/
def substitute (vars : List (String × String)) (t : String) : String :=
  vars.foldl (fun acc kv => pyReplace acc kv.1 kv.2) t

/-- `preview_template` (src/streamlit_app.py lines 152-177), with the
per-call random token made an explicit argument. -/
def preview_template (template : String) (p : Product) (image_index : Nat)
    (random_id : String) : String :=
  substitute (previewVars p image_index random_id) template

/-- The index-locating loop of `apply_template_to_image` /
`apply_filename_template_to_image`: first image whose id matches, else 0. -/
def imageIndexOf (p : Product) (image_id : String) : Nat :=
  (p.images.findIdx? (fun img => img.id == image_id)).getD 0

/-- The alt-text string computed by `apply_template_to_image`
(src/streamlit_app.py lines 179-225): template looked up by id (empty string
when absent), variables substituted sequentially.  The in-place image
mutation and the remote push are side effects outside this pure core. -/
def apply_template_to_image (templates : List Template) (p : Product)
    (image_id template_id random_id : String) : String :=
  match templates.find? (fun t => t.id == template_id) with
  | none => ""
  | some t => substitute (applyAltVars p (imageIndexOf p image_id) random_id) t.template

/-- `if "." not in filename_template: filename_template += ".jpg"`
(src/streamlit_app.py lines 263-265). -/
def ensureExtension (s : String) : String :=
  if '.' ∈ s.data then s else s ++ ".jpg"

/- ------------------------------------------------------------------
Filename Uniqueness Guard.
------------------------------------------------------------------ -/

/-- Index of the last `'.'` in a character list, if any. -/
def lastDotIdxAux : List Char → Nat → Option Nat → Option Nat
  | [], _, best => best
  | c :: rest, j, best =>
    lastDotIdxAux rest (j + 1) (if c = '.' then some j else best)

/-- Split a filename at its last dot into stem and extension
(extension includes the dot; whole string is the stem when dotless). -/
def splitExt (s : String) : String × String :=
  match lastDotIdxAux s.data 0 none with
  | none => (s, "")
  | some i => (⟨s.data.take i⟩, ⟨s.data.drop i⟩)

/-- Candidate disambiguated name: incrementing numeric suffix inserted
before the extension. -/
def candName (stem ext : String) (k : Nat) : String :=
  stem ++ "-" ++ decRepr k ++ ext

/-- Scan candidate suffixes `k, k+1, ...` for one not already issued;
`fuel = issued.length` always suffices (see `disambiguateAux_not_mem`). -/
def disambiguateAux (stem ext : String) (issued : List String) :
    Nat → Nat → String
  | 0, k => candName stem ext k
  | fuel + 1, k =>
    if candName stem ext k ∈ issued then
      disambiguateAux stem ext issued fuel (k + 1)
    else candName stem ext k

/-- Deterministic collision repair: smallest suffix `k ≥ 2` whose candidate
name is not already issued. -/
def disambiguate (stem ext : String) (issued : List String) : String :=
  disambiguateAux stem ext issued issued.length 2

/-- Modelled from the spec: `generate_unique_filename` is imported from
`shopify_api` by src/streamlit_app.py line 22 and called at line 268, but it
is defined nowhere in the repository; this follows spec §4.3 word for word:
(1) append a default `.jpg` extension when the rendered name has no dot,
(2) if the name was already issued for a sibling image, insert an
incrementing suffix before the extension until it is unique,
(3) register the final name into `previously_issued` before returning. -/
def finalize_filename (rendered : String) (issued : List String) :
    String × List String :=
  let base := if '.' ∈ rendered.data then rendered else rendered ++ ".jpg"
  let name :=
    if base ∈ issued then
      disambiguate (splitExt base).1 (splitExt base).2 issued
    else base
  (name, name :: issued)

/-- One bulk-apply run of a single filename template over an entity's images
(the sequential loop of spec §5 around `apply_filename_template_to_image`,
src/streamlit_app.py lines 227-280): per image, substitute the slug-mode
variables (with that image's fresh random token `rs i`), ensure an extension
(lines 263-265), then pass through the uniqueness guard.  Returns the issued
names in order plus the final `previously_issued` set. -/
def runFilenameAux (p : Product) (template : String) (rs : Nat → String) :
    Nat → List PImage → List String → List String × List String
  | _, [], issued => ([], issued)
  | i, _ :: rest, issued =>
    let rendered := ensureExtension (substitute (filenameVars p i (rs i)) template)
    let step := finalize_filename rendered issued
    let tail := runFilenameAux p template rs (i + 1) rest step.2
    (step.1 :: tail.1, tail.2)

/-- Apply one filename template across all images of `p`, seeding the
issued-set with `issued0` (spec §5: pre-existing sibling filenames). -/
def applyFilenameRun (p : Product) (template : String) (rs : Nat → String)
    (issued0 : List String) : List String × List String :=
  runFilenameAux p template rs 0 p.images issued0

/- ------------------------------------------------------------------
Coverage aggregator (src/streamlit_app.py lines 282-299).
------------------------------------------------------------------ -/

/-- Python truthiness of the string field `image.get("alt")`. -/
def truthyStr (s : String) : Bool :=
  s ≠ ""

/-- Python truthiness of `image.get("applied_filename_template")`
(missing key → `None` → falsy; empty string → falsy). -/
def truthyOptStr : Option String → Bool
  | none => false
  | some s => s ≠ ""

/-- The inner counting step of `calculate_coverage_metrics`:
`total += 1; if image.get("alt"): ...; if image.get("applied_filename_template"): ...`. -/
def coverageStep (acc : Nat × Nat × Nat) (img : PImage) : Nat × Nat × Nat :=
  (acc.1 + 1,
   acc.2.1 + (if truthyStr img.alt then 1 else 0),
   acc.2.2 + (if truthyOptStr img.applied_filename_template then 1 else 0))

/-- `calculate_coverage_metrics` (src/streamlit_app.py lines 282-299) over an
explicit product collection; returns
`(images_with_alt, total_images, alt_coverage, filename_coverage)` with the
guarded percentage formulas, float arithmetic modelled over `ℚ`. -/
def calculate_coverage_metrics (products : List Product) :
    Nat × Nat × ℚ × ℚ :=
  let counts := products.foldl (fun acc p => p.images.foldl coverageStep acc)
    ((0, 0, 0) : Nat × Nat × Nat)
  let alt_coverage : ℚ :=
    if counts.1 > 0 then (counts.2.1 : ℚ) / (counts.1 : ℚ) * 100 else 0
  let filename_coverage : ℚ :=
    if counts.1 > 0 then (counts.2.2 : ℚ) / (counts.1 : ℚ) * 100 else 0
  (counts.2.1, counts.1, alt_coverage, filename_coverage)

/- ------------------------------------------------------------------
Template store (src/streamlit_app.py lines 1176-1364).
------------------------------------------------------------------ -/

/-- `f"template_{len(pool) + 1}_{int(time.time())}"`
(src/streamlit_app.py line 1179). -/
def mkTemplateId (poolLen ts : Nat) : String :=
  "template_" ++ decRepr (poolLen + 1) ++ "_" ++ decRepr ts

/-- `f"filename_template_{len(pool) + 1}_{int(time.time())}"`
(src/streamlit_app.py line 1356). -/
def mkFilenameTemplateId (poolLen ts : Nat) : String :=
  "filename_template_" ++ decRepr (poolLen + 1) ++ "_" ++ decRepr ts

/-- The Add Template handler (src/streamlit_app.py lines 1176-1187): when
both fields are truthy the new template is appended, otherwise an error is
surfaced (`st.error`) and the pool is untouched.  The Bool records whether
the validation error was surfaced. -/
def addTemplateHandler (pool : List Template) (ts : Nat) (name tstr : String) :
    List Template × Bool :=
  if name ≠ "" ∧ tstr ≠ "" then
    (pool ++ [{ id := mkTemplateId pool.length ts, name := name, template := tstr }], false)
  else
    (pool, true)

/-- The filename-pool Add Template handler (src/streamlit_app.py lines
1353-1364), identical but for the id prefix. -/
def addFilenameTemplateHandler (pool : List Template) (ts : Nat)
    (name tstr : String) : List Template × Bool :=
  if name ≠ "" ∧ tstr ≠ "" then
    (pool ++ [{ id := mkFilenameTemplateId pool.length ts, name := name, template := tstr }], false)
  else
    (pool, true)

/-- The in-place update loop of the Save handler (src/streamlit_app.py lines
1302-1306): first template whose id matches gets its name and template
string replaced; `break` stops after the first match; no match is silent. -/
def updateFirst (editId name tstr : String) : List Template → List Template
  | [] => []
  | t :: rest =>
    if t.id == editId then { t with name := name, template := tstr } :: rest
    else t :: updateFirst editId name tstr rest

/-- The Save (edit) handler (src/streamlit_app.py lines 1298-1313): when both
edited fields are truthy it runs the update loop and reports success
(`st.success` — shown whether or not the id was found; there is no
NotFoundError path); otherwise nothing happens.  The Bool records whether
success was reported. -/
def saveTemplateHandler (pool : List Template) (editId name tstr : String) :
    List Template × Bool :=
  if name ≠ "" ∧ tstr ≠ "" then (updateFirst editId name tstr pool, true)
  else (pool, false)

/-- A user action against the alt-text template pool: the Add Template
handler (with the wall-clock second it runs at) or a Delete button
(`st.session_state.templates.pop(i)`, src/streamlit_app.py line 1268). -/
inductive PoolOp where
  | create (ts : Nat) (name tstr : String)
  | del (idx : Nat)
deriving Repr, DecidableEq

/-- Apply one pool operation. -/
def applyOp (pool : List Template) : PoolOp → List Template
  | .create ts name tstr => (addTemplateHandler pool ts name tstr).1
  | .del idx => pool.eraseIdx idx

/-- Run a sequence of pool operations from the empty pool. -/
def runOps (ops : List PoolOp) : List Template :=
  ops.foldl applyOp []

/-- The timestamps carried by the create operations of a sequence. -/
def createTimestamps : List PoolOp → List Nat
  | [] => []
  | .create ts _ _ :: rest => ts :: createTimestamps rest
  | .del _ :: rest => createTimestamps rest

/- ------------------------------------------------------------------
Spec-side definitions (used to state claims; written from the spec's
words, for comparison against the code-derived definitions above).
------------------------------------------------------------------ -/

/-- The normalization the code actually applies to scalar filename-mode
values: spaces to hyphens, then lower-case. -/
def spaceNormalize (s : String) : String :=
  pyLower (pyReplace s " " "-")

/-- The spec's filename-mode normalization (spec §4.2): internal whitespace
replaced with hyphens, then lower-cased. -/
def specNormalize (s : String) : String :=
  pyLower ⟨s.data.map (fun c => if isSpaceChar c then '-' else c)⟩

/-- Rounding to one decimal place, as claimed of the coverage percentages. -/
def round1 (q : ℚ) : ℚ :=
  (round (q * 10) : ℚ) / 10

/-- The per-variant fields requested by the GraphQL query in
`fetch_products` (src/shopify_api.py lines 118-126). -/
def variantQueryFields : List String :=
  ["id", "title", "price"]

/-- Names defined at top level in src/shopify_api.py. -/
def shopifyApiDefinedNames : List String :=
  ["make_shopify_request", "fetch_products", "update_image_alt_text",
   "test_shopify_connection"]

/-- Names src/streamlit_app.py imports from shopify_api (lines 20-23). -/
def streamlitImportsFromShopifyApi : List String :=
  ["make_shopify_request", "fetch_products", "fetch_selected_products",
   "update_image_alt_text", "update_image_filename", "generate_unique_filename"]

/- ==================================================================
Helper lemmas: decimal rendering
================================================================== -/

theorem digitVal_digitChar {n : Nat} (h : n < 10) :
    digitVal (Nat.digitChar n) = n := by
  interval_cases n <;> decide

theorem decVal_append_singleton (l : List Char) (c : Char) :
    decVal (l ++ [c]) = 10 * decVal l + digitVal c := by
  simp [decVal, List.foldl_append]

theorem decReprAux_val : ∀ (fuel n : Nat), n < 10 ^ fuel →
    decVal (decReprAux fuel n) = n := by
  intro fuel
  induction fuel with
  | zero => intro n hn; simp at hn; simp [hn, decReprAux, decVal]
  | succ fuel ih =>
    intro n hn
    by_cases h10 : n < 10
    · simp [decReprAux, h10, decVal, digitVal_digitChar h10]
    · have hdiv : n / 10 < 10 ^ fuel := by
        rw [Nat.div_lt_iff_lt_mul (by norm_num)]
        calc n < 10 ^ (fuel + 1) := hn
        _ = 10 ^ fuel * 10 := by ring
      simp only [decReprAux, if_neg h10]
      rw [decVal_append_singleton, ih _ hdiv,
        digitVal_digitChar (Nat.mod_lt _ (by norm_num))]
      omega

theorem decVal_decRepr (n : Nat) : decVal (decRepr n).data = n := by
  have hfuel : n < 10 ^ (n + 1) := by
    calc n < 2 ^ n := Nat.lt_two_pow n
    _ ≤ 10 ^ n := Nat.pow_le_pow_left (by norm_num) n
    _ ≤ 10 ^ (n + 1) := Nat.pow_le_pow_right (by norm_num) (Nat.le_succ n)
  exact decReprAux_val (n + 1) n hfuel

theorem decRepr_injective : Function.Injective decRepr := by
  intro m n h
  have : decVal (decRepr m).data = decVal (decRepr n).data := by rw [h]
  rwa [decVal_decRepr, decVal_decRepr] at this

theorem decReprAux_isDigit : ∀ (fuel n : Nat) (c : Char),
    c ∈ decReprAux fuel n → c.isDigit = true := by
  intro fuel
  induction fuel with
  | zero => intro n c hc; simp [decReprAux] at hc
  | succ fuel ih =>
    intro n c hc
    by_cases h10 : n < 10
    · simp [decReprAux, h10] at hc
      subst hc
      interval_cases n <;> decide
    · simp only [decReprAux, if_neg h10, List.mem_append, List.mem_singleton] at hc
      rcases hc with hc | hc
      · exact ih _ _ hc
      · subst hc
        have : n % 10 < 10 := Nat.mod_lt _ (by norm_num)
        interval_cases h : (n % 10) <;> decide

theorem decRepr_no_underscore (n : Nat) : '_' ∉ (decRepr n).data := by
  intro hmem
  have := decReprAux_isDigit (n + 1) n '_' hmem
  simp [Char.isDigit] at this

theorem decRepr_no_hyphen (n : Nat) : '-' ∉ (decRepr n).data := by
  intro hmem
  have := decReprAux_isDigit (n + 1) n '-' hmem
  simp [Char.isDigit] at this

/- ==================================================================
Helper lemmas: splitting around a marker character
================================================================== -/

theorem append_cons_eq_of_not_mem {c : Char} :
    ∀ (a a' b b' : List Char), c ∉ a → c ∉ a' →
    a ++ c :: b = a' ++ c :: b' → a = a' ∧ b = b' := by
  intro a
  induction a with
  | nil =>
    intro a' b b' _ ha' heq
    cases a' with
    | nil => simpa using heq
    | cons x xs =>
      simp at heq
      exact absurd (heq.1 ▸ List.mem_cons_self x xs) (heq.1 ▸ ha')
  | cons x xs ih =>
    intro a' b b' ha ha' heq
    cases a' with
    | nil =>
      simp at heq
      exact absurd (heq.1 ▸ List.mem_cons_self x xs) (heq.1 ▸ ha)
    | cons y ys =>
      simp at heq
      obtain ⟨hxy, hrec⟩ := heq
      have hxs : c ∉ xs := fun hm => ha (List.mem_cons_of_mem _ hm)
      have hys : c ∉ ys := fun hm => ha' (List.mem_cons_of_mem _ hm)
      obtain ⟨h1, h2⟩ := ih ys b b' hxs hys hrec
      exact ⟨by rw [hxy, h1], h2⟩

theorem mkTemplateId_data (n ts : Nat) :
    (mkTemplateId n ts).data =
      "template_".data ++ ((decRepr (n + 1)).data ++ '_' :: (decRepr ts).data) := by
  simp [mkTemplateId, String.data_append]

theorem mkTemplateId_ts_inj {n n' ts ts' : Nat}
    (h : mkTemplateId n ts = mkTemplateId n' ts') : ts = ts' := by
  have hdata := congrArg String.data h
  rw [mkTemplateId_data, mkTemplateId_data] at hdata
  have h2 := List.append_cancel_left hdata
  have h3 := append_cons_eq_of_not_mem _ _ _ _
    (decRepr_no_underscore (n + 1)) (decRepr_no_underscore (n' + 1)) h2
  exact decRepr_injective (by ext1; exact h3.2)

/- ==================================================================
Helper lemmas: template store
================================================================== -/

theorem updateFirst_map_id (editId name tstr : String) :
    ∀ pool : List Template,
    (updateFirst editId name tstr pool).map Template.id = pool.map Template.id := by
  intro pool
  induction pool with
  | nil => rfl
  | cons t rest ih =>
    by_cases h : t.id == editId
    · simp [updateFirst, h]
    · simp [updateFirst, h, ih]

theorem updateFirst_no_match (editId name tstr : String) :
    ∀ pool : List Template, (∀ t ∈ pool, t.id ≠ editId) →
    updateFirst editId name tstr pool = pool := by
  intro pool
  induction pool with
  | nil => intro _; rfl
  | cons t rest ih =>
    intro habs
    have ht : t.id ≠ editId := habs t (List.mem_cons_self t rest)
    simp only [updateFirst, beq_iff_eq, if_neg ht]
    rw [ih (fun u hu => habs u (List.mem_cons_of_mem _ hu))]

theorem updateFirst_getElem (editId name tstr : String) :
    ∀ (pool : List Template) (i : Nat),
    (∀ t ∈ pool.take i, t.id ≠ editId) →
    pool[i]?.map Template.id = some editId →
    (updateFirst editId name tstr pool)[i]? =
      pool[i]?.map (fun t => { t with name := name, template := tstr }) ∧
    ∀ j, j ≠ i → (updateFirst editId name tstr pool)[j]? = pool[j]? := by
  intro pool
  induction pool with
  | nil => intro i _ hmatch; simp at hmatch
  | cons t rest ih =>
    intro i htake hmatch
    cases i with
    | zero =>
      simp at hmatch
      simp only [updateFirst, beq_iff_eq, if_pos hmatch]
      constructor
      · simp
      · intro j hj
        cases j with
        | zero => exact absurd rfl hj
        | succ j => simp
    | succ i =>
      simp only [List.take_succ_cons, List.mem_cons, forall_eq_or_imp] at htake
      obtain ⟨ht, htake'⟩ := htake
      simp only [List.getElem?_cons_succ] at hmatch
      simp only [updateFirst, beq_iff_eq, if_neg ht]
      obtain ⟨h1, h2⟩ := ih i htake' hmatch
      refine ⟨by simpa using h1, ?_⟩
      intro j hj
      cases j with
      | zero => simp
      | succ j =>
        simp only [List.getElem?_cons_succ]
        exact h2 j (fun hji => hj (by rw [hji]))

theorem mem_applyOp (pool : List Template) (op : PoolOp) (t : Template)
    (ht : t ∈ applyOp pool op) :
    t ∈ pool ∨ ∃ k ts, (∃ name tstr, op = .create ts name tstr) ∧
      t.id = mkTemplateId k ts := by
  cases op with
  | create ts name tstr =>
    simp only [applyOp, addTemplateHandler] at ht
    by_cases h : name ≠ "" ∧ tstr ≠ ""
    · rw [if_pos h] at ht
      simp at ht
      rcases ht with ht | ht
      · exact Or.inl ht
      · exact Or.inr ⟨pool.length, ts, ⟨name, tstr, rfl⟩, by rw [ht]⟩
    · rw [if_neg h] at ht
      exact Or.inl ht
  | del idx =>
    exact Or.inl (List.eraseIdx_subset pool idx ht)

theorem foldl_applyOp_ids_nodup :
    ∀ (ops : List PoolOp) (pool : List Template),
    (pool.map Template.id).Nodup →
    (∀ t ∈ pool, ∀ ts ∈ createTimestamps ops, ∀ k, t.id ≠ mkTemplateId k ts) →
    (createTimestamps ops).Nodup →
    ((ops.foldl applyOp pool).map Template.id).Nodup := by
  intro ops
  induction ops with
  | nil => intro pool hnd _ _; simpa using hnd
  | cons op rest ih =>
    intro pool hnd hfresh hts
    simp only [List.foldl_cons]
    cases op with
    | del idx =>
      refine ih (pool.eraseIdx idx) ?_ ?_ ?_
      · exact hnd.sublist ((pool.eraseIdx_sublist idx).map Template.id)
      · intro t htmem ts hts' k
        exact hfresh t (List.eraseIdx_subset pool idx htmem) ts hts' k
      · exact hts
    | create ts name tstr =>
      have htkk : createTimestamps (PoolOp.create ts name tstr :: rest) =
          ts :: createTimestamps rest := rfl
      rw [htkk] at hfresh hts
      have htsrest : (createTimestamps rest).Nodup := (List.nodup_cons.mp hts).2
      have htsnot : ts ∉ createTimestamps rest := (List.nodup_cons.mp hts).1
      simp only [applyOp, addTemplateHandler]
      by_cases h : name ≠ "" ∧ tstr ≠ ""
      · rw [if_pos h]
        refine ih _ ?_ ?_ htsrest
        · simp only [List.map_append, List.map_cons, List.map_nil]
          rw [List.nodup_append]
          refine ⟨hnd, List.nodup_singleton _, ?_⟩
          intro x hx
          simp only [List.mem_map] at hx
          obtain ⟨t, htmem, hteq⟩ := hx
          simp only [List.mem_singleton]
          intro hxeq
          exact hfresh t htmem ts (List.mem_cons_self _ _) pool.length
            (by rw [hteq, hxeq])
        · intro t htmem ts' hts' k
          simp only [List.mem_append, List.mem_singleton] at htmem
          rcases htmem with htmem | htmem
          · exact hfresh t htmem ts' (List.mem_cons_of_mem _ hts') k
          · rw [htmem]
            simp only
            intro hcontr
            have : ts = ts' := mkTemplateId_ts_inj hcontr
            exact htsnot (this ▸ hts')
      · rw [if_neg h]
        refine ih pool hnd ?_ htsrest
        intro t htmem ts' hts' k
        exact hfresh t htmem ts' (List.mem_cons_of_mem _ hts') k

/- ==================================================================
Claims C6, C7, C8: template store behavior
================================================================== -/

/-- C6: creating a template with an empty name or an empty template string
surfaces the validation error (the `st.error` branch, spec: `ValidationError`)
and leaves the pool unchanged — in both the alt-text pool and the filename
pool. -/
theorem create_empty_rejected (pool fpool : List Template) (ts fts : Nat)
    (name tstr : String) (h : name = "" ∨ tstr = "") :
    addTemplateHandler pool ts name tstr = (pool, true) ∧
    addFilenameTemplateHandler fpool fts name tstr = (fpool, true) := by
  rcases h with h | h <;>
    simp [addTemplateHandler, addFilenameTemplateHandler, h]

/-- Witness for C6 at a concrete input: empty name, pool of one template. -/
theorem create_empty_rejected_witness :
    addTemplateHandler [{ id := "template_1_5", name := "n", template := "s" }]
        9 "" "{title}" =
      ([{ id := "template_1_5", name := "n", template := "s" }], true) ∧
    addFilenameTemplateHandler [] 9 "" "{title}" = ([], true) :=
  create_empty_rejected
    [{ id := "template_1_5", name := "n", template := "s" }] [] 9 9 "" "{title}"
    (Or.inl rfl)

/-- C7 counterexample: the Save handler called with an identifier absent from
the pool does NOT fail with a NotFoundError — it reports success (`.2 = true`,
the unconditional `st.success` branch) and silently leaves the pool
unchanged. -/
theorem update_absent_id_silent_cx :
    saveTemplateHandler [{ id := "template_1_5", name := "n", template := "s" }]
        "missing_id" "x" "y" =
      ([{ id := "template_1_5", name := "n", template := "s" }], true) := by
  decide

/-- C7 (amended): with non-empty edited fields, the Save handler always
reports success; ids and positions are preserved; an absent id is a silent
no-op; a present id has the FIRST matching template's name and template
string replaced in place and every other entry untouched. -/
theorem update_inplace_or_noop (pool : List Template) (editId name tstr : String)
    (h1 : name ≠ "") (h2 : tstr ≠ "") :
    (saveTemplateHandler pool editId name tstr).2 = true ∧
    (saveTemplateHandler pool editId name tstr).1.map Template.id =
      pool.map Template.id ∧
    ((∀ t ∈ pool, t.id ≠ editId) →
      (saveTemplateHandler pool editId name tstr).1 = pool) ∧
    (∀ i, (∀ t ∈ pool.take i, t.id ≠ editId) →
      pool[i]?.map Template.id = some editId →
      (saveTemplateHandler pool editId name tstr).1[i]? =
        pool[i]?.map (fun t => { t with name := name, template := tstr }) ∧
      ∀ j, j ≠ i →
        (saveTemplateHandler pool editId name tstr).1[j]? = pool[j]?) := by
  have hcond : name ≠ "" ∧ tstr ≠ "" := ⟨h1, h2⟩
  have hs : saveTemplateHandler pool editId name tstr =
      (updateFirst editId name tstr pool, true) := by
    simp [saveTemplateHandler, hcond]
  rw [hs]
  refine ⟨rfl, updateFirst_map_id editId name tstr pool, ?_, ?_⟩
  · exact updateFirst_no_match editId name tstr pool
  · intro i htake hmatch
    exact updateFirst_getElem editId name tstr pool i htake hmatch

/-- Witness for C7 (amended) at a concrete input: a present id is updated in
place with success reported. -/
theorem update_inplace_or_noop_witness :
    (saveTemplateHandler [{ id := "template_1_9", name := "a", template := "b" }]
        "template_1_9" "c" "d").1[0]? =
      some { id := "template_1_9", name := "c", template := "d" } ∧
    (saveTemplateHandler [{ id := "template_1_9", name := "a", template := "b" }]
        "template_1_9" "c" "d").2 = true := by
  have h := update_inplace_or_noop
    [{ id := "template_1_9", name := "a", template := "b" }]
    "template_1_9" "c" "d" (by decide) (by decide)
  refine ⟨?_, h.1⟩
  have h4 := (h.2.2.2 0 (by simp) (by simp)).1
  simpa using h4

/-- C8 counterexample: two creates in the same wall-clock second followed by
a delete and another create in that second give two LIVE templates with the
same identifier `template_2_7` — a successful create can assign an id already
live in the pool. -/
theorem create_id_collision_cx :
    ¬ ((runOps [PoolOp.create 7 "a" "x", PoolOp.create 7 "b" "y", PoolOp.del 0,
        PoolOp.create 7 "c" "z"]).map Template.id).Nodup := by
  decide

/-- C8 (amended): for every sequence of create and delete operations in which
no two creates carry the same integer timestamp (`int(time.time())` second),
all live template identifiers are pairwise distinct — in particular each
successful create assigns an id distinct from every live one. -/
theorem create_ids_nodup (ops : List PoolOp)
    (h : (createTimestamps ops).Nodup) :
    ((runOps ops).map Template.id).Nodup := by
  refine foldl_applyOp_ids_nodup ops [] (by simp) ?_ h
  intro t ht
  simp at ht

/-- Witness for C8 (amended): a create/delete/create run at distinct
timestamps yields pairwise distinct live ids. -/
theorem create_ids_nodup_witness :
    ((runOps [PoolOp.create 7 "a" "x", PoolOp.create 8 "b" "y", PoolOp.del 0,
        PoolOp.create 9 "c" "z"]).map Template.id).Nodup :=
  create_ids_nodup
    [PoolOp.create 7 "a" "x", PoolOp.create 8 "b" "y", PoolOp.del 0,
     PoolOp.create 9 "c" "z"] (by decide)

/- ==================================================================
Helper lemmas: substitution
================================================================== -/

theorem pyReplaceAux_no_occur (pat rep : List Char) :
    ∀ (fuel : Nat) (s : List Char), occursIn pat s = false →
    pyReplaceAux pat rep fuel s = s := by
  intro fuel
  induction fuel with
  | zero => intro s _; rfl
  | succ fuel ih =>
    intro s hocc
    cases s with
    | nil => rfl
    | cons c rest =>
      rw [occursIn, Bool.or_eq_false_iff] at hocc
      obtain ⟨hpre, hrest⟩ := hocc
      simp only [pyReplaceAux, hpre, Bool.and_false, Bool.false_eq_true,
        if_false]
      rw [ih rest hrest]

theorem pyReplace_no_occur (s pat rep : String)
    (h : occursIn pat.data s.data = false) : pyReplace s pat rep = s := by
  unfold pyReplace
  rw [pyReplaceAux_no_occur pat.data rep.data s.data.length s.data h]

theorem substitute_no_placeholder :
    ∀ (vars : List (String × String)) (t : String),
    (∀ kv ∈ vars, occursIn kv.1.data t.data = false) →
    substitute vars t = t := by
  intro vars
  induction vars with
  | nil => intro t _; rfl
  | cons kv rest ih =>
    intro t h
    show substitute rest (pyReplace t kv.1 kv.2) = t
    rw [pyReplace_no_occur t kv.1 kv.2 (h kv (List.mem_cons_self _ _))]
    exact ih t (fun kv' h' => h kv' (List.mem_cons_of_mem _ h'))

/- ==================================================================
Helper lemmas: filename uniqueness guard
================================================================== -/

theorem candName_data (stem ext : String) (k : Nat) :
    (candName stem ext k).data =
      stem.data ++ ('-' :: ((decRepr k).data ++ ext.data)) := by
  simp [candName, String.data_append]

theorem candName_inj (stem ext : String) :
    Function.Injective (candName stem ext) := by
  intro k k' h
  have hdata := congrArg String.data h
  rw [candName_data, candName_data] at hdata
  have h2 := List.append_cancel_left hdata
  have h4 : (decRepr k).data ++ ext.data = (decRepr k').data ++ ext.data := by
    injection h2
  have h5 := List.append_cancel_right h4
  exact decRepr_injective (by ext1; exact h5)

theorem exists_cand_not_mem (stem ext : String) (issued : List String)
    (k : Nat) : ∃ i ≤ issued.length, candName stem ext (k + i) ∉ issued := by
  by_contra hcon
  push_neg at hcon
  have hle := Finset.card_le_card_of_injOn
    (f := fun i : Fin (issued.length + 1) => candName stem ext (k + i.val))
    (s := Finset.univ) (t := issued.toFinset)
    (fun i _ => List.mem_toFinset.mpr (hcon i.val (Nat.le_of_lt_succ i.isLt)))
    (fun a _ b _ hab => Fin.ext (by
      have := candName_inj stem ext hab
      omega))
  rw [Finset.card_univ, Fintype.card_fin] at hle
  have hlen := issued.toFinset_card_le
  omega

theorem disambiguateAux_not_mem (stem ext : String) (issued : List String) :
    ∀ (fuel k : Nat), (∃ i ≤ fuel, candName stem ext (k + i) ∉ issued) →
    disambiguateAux stem ext issued fuel k ∉ issued := by
  intro fuel
  induction fuel with
  | zero =>
    rintro k ⟨i, hi, hnot⟩
    have hz : i = 0 := Nat.le_zero.mp hi
    subst hz
    simpa [disambiguateAux] using hnot
  | succ fuel ih =>
    rintro k ⟨i, hi, hnot⟩
    by_cases hmem : candName stem ext k ∈ issued
    · have hine : i ≠ 0 := by
        rintro rfl
        exact hnot (by simpa using hmem)
      simp only [disambiguateAux, if_pos hmem]
      refine ih (k + 1) ⟨i - 1, by omega, ?_⟩
      have harith : k + 1 + (i - 1) = k + i := by omega
      rw [harith]
      exact hnot
    · simp only [disambiguateAux, if_neg hmem]
      exact hmem

theorem disambiguate_not_mem (stem ext : String) (issued : List String) :
    disambiguate stem ext issued ∉ issued :=
  disambiguateAux_not_mem stem ext issued issued.length 2
    (exists_cand_not_mem stem ext issued 2)

theorem finalize_filename_fresh (rendered : String) (issued : List String) :
    (finalize_filename rendered issued).1 ∉ issued := by
  by_cases hdot : '.' ∈ rendered.data
  · by_cases hmem : rendered ∈ issued
    · simpa [finalize_filename, hdot, hmem] using
        disambiguate_not_mem (splitExt rendered).1 (splitExt rendered).2 issued
    · simp [finalize_filename, hdot, hmem]
  · by_cases hmem : rendered ++ ".jpg" ∈ issued
    · simpa [finalize_filename, hdot, hmem] using
        disambiguate_not_mem (splitExt (rendered ++ ".jpg")).1
          (splitExt (rendered ++ ".jpg")).2 issued
    · simp [finalize_filename, hdot, hmem]

theorem finalize_filename_snd (rendered : String) (issued : List String) :
    (finalize_filename rendered issued).2 =
      (finalize_filename rendered issued).1 :: issued := rfl

theorem runFilenameAux_fresh (p : Product) (template : String)
    (rs : Nat → String) :
    ∀ (images : List PImage) (i : Nat) (issued : List String),
    (runFilenameAux p template rs i images issued).1.Nodup ∧
    ∀ nm ∈ (runFilenameAux p template rs i images issued).1, nm ∉ issued := by
  intro images
  induction images with
  | nil =>
    intro i issued
    exact ⟨List.nodup_nil, by simp [runFilenameAux]⟩
  | cons img rest ih =>
    intro i issued
    have hstep := finalize_filename_fresh
      (ensureExtension (substitute (filenameVars p i (rs i)) template)) issued
    obtain ⟨ihnd, ihfresh⟩ := ih (i + 1)
      (finalize_filename
        (ensureExtension (substitute (filenameVars p i (rs i)) template)) issued).2
    simp only [runFilenameAux]
    constructor
    · rw [List.nodup_cons]
      refine ⟨fun hin => ?_, ihnd⟩
      have := ihfresh _ hin
      rw [finalize_filename_snd] at this
      exact this (List.mem_cons_self _ _)
    · intro nm hnm
      rcases List.mem_cons.mp hnm with hnm | hnm
      · rw [hnm]; exact hstep
      · have := ihfresh nm hnm
        rw [finalize_filename_snd] at this
        exact fun hiss => this (List.mem_cons_of_mem _ hiss)

/- ==================================================================
Claim C1: filename uniqueness within one entity run
================================================================== -/

/-- C1: for every entity, filename template, per-image random tokens and
seeded issued-set, one bulk-apply run over the entity's images never issues
the same final filename twice — even when the template renders identically
for every image (the statement quantifies over arbitrary templates,
including ones whose rendering does not depend on the image). -/
theorem filename_run_outputs_nodup (p : Product) (template : String)
    (rs : Nat → String) (issued0 : List String) :
    (applyFilenameRun p template rs issued0).1.Nodup :=
  (runFilenameAux_fresh p template rs p.images 0 issued0).1

/- ==================================================================
Helper lemmas: coverage aggregator
================================================================== -/

theorem foldl_coverageStep (images : List PImage) :
    ∀ acc : Nat × Nat × Nat, images.foldl coverageStep acc =
      (acc.1 + images.length,
       acc.2.1 + images.countP (fun im => truthyStr im.alt),
       acc.2.2 + images.countP (fun im => truthyOptStr im.applied_filename_template)) := by
  induction images with
  | nil => intro acc; simp
  | cons img rest ih =>
    intro acc
    rw [List.foldl_cons, ih]
    by_cases h1 : truthyStr img.alt <;>
      by_cases h2 : truthyOptStr img.applied_filename_template <;>
      simp [coverageStep, List.countP_cons, h1, h2, Prod.ext_iff] <;> omega

theorem foldl_coverage_products (products : List Product) :
    ∀ acc : Nat × Nat × Nat,
    products.foldl (fun acc p => p.images.foldl coverageStep acc) acc =
      (acc.1 + (products.flatMap Product.images).length,
       acc.2.1 + (products.flatMap Product.images).countP
         (fun im => truthyStr im.alt),
       acc.2.2 + (products.flatMap Product.images).countP
         (fun im => truthyOptStr im.applied_filename_template)) := by
  induction products with
  | nil => intro acc; simp
  | cons p rest ih =>
    intro acc
    rw [List.foldl_cons, foldl_coverageStep, ih]
    simp [List.flatMap_cons, List.countP_append, Prod.ext_iff]
    omega

theorem coverage_counts (products : List Product) :
    products.foldl (fun acc p => p.images.foldl coverageStep acc)
        ((0, 0, 0) : Nat × Nat × Nat) =
      ((products.flatMap Product.images).length,
       (products.flatMap Product.images).countP (fun im => truthyStr im.alt),
       (products.flatMap Product.images).countP
         (fun im => truthyOptStr im.applied_filename_template)) := by
  rw [foldl_coverage_products]
  simp

/- ==================================================================
Claims C3 and C4: coverage metrics
================================================================== -/

/-- C3: for every product collection — including the empty one and products
with zero images — both coverage percentages lie in `[0, 100]`, and both are
exactly `0` when the total image count is `0`; the computation is a total
function into `ℚ` (no division fault, no NaN: the guarded branch never
divides by zero). -/
theorem coverage_pcts_bounded (products : List Product) :
    0 ≤ (calculate_coverage_metrics products).2.2.1 ∧
    (calculate_coverage_metrics products).2.2.1 ≤ 100 ∧
    0 ≤ (calculate_coverage_metrics products).2.2.2 ∧
    (calculate_coverage_metrics products).2.2.2 ≤ 100 ∧
    ((calculate_coverage_metrics products).2.1 = 0 →
      (calculate_coverage_metrics products).2.2.1 = 0 ∧
      (calculate_coverage_metrics products).2.2.2 = 0) := by
  have hc := coverage_counts products
  set imgs := products.flatMap Product.images with himgs
  have kalt : (imgs.countP (fun im => truthyStr im.alt)) ≤ imgs.length :=
    List.countP_le_length _
  have kfn : (imgs.countP (fun im => truthyOptStr im.applied_filename_template))
      ≤ imgs.length := List.countP_le_length _
  simp only [calculate_coverage_metrics, hc]
  by_cases hz : imgs.length = 0
  · simp [hz]
  · have hpos : 0 < imgs.length := Nat.pos_of_ne_zero hz
    have hposq : (0 : ℚ) < (imgs.length : ℚ) := by exact_mod_cast hpos
    simp only [if_pos hpos]
    have hb : ∀ c : Nat, c ≤ imgs.length →
        0 ≤ (c : ℚ) / (imgs.length : ℚ) * 100 ∧
        (c : ℚ) / (imgs.length : ℚ) * 100 ≤ 100 := by
      intro c hcle
      constructor
      · positivity
      · have h1 : (c : ℚ) / (imgs.length : ℚ) ≤ 1 := by
          rw [div_le_one hposq]
          exact_mod_cast hcle
        calc (c : ℚ) / (imgs.length : ℚ) * 100 ≤ 1 * 100 := by
              apply mul_le_mul_of_nonneg_right h1; norm_num
        _ = 100 := by norm_num
    obtain ⟨ha1, ha2⟩ := hb _ kalt
    obtain ⟨hf1, hf2⟩ := hb _ kfn
    exact ⟨ha1, ha2, hf1, hf2, fun h0 => absurd h0 hz⟩

/-- Witness for C3 zero-denominator case: the empty collection yields total
`0` and both percentages exactly `0`. -/
theorem coverage_pcts_bounded_witness :
    (calculate_coverage_metrics []).2.2.1 = 0 ∧
    (calculate_coverage_metrics []).2.2.2 = 0 :=
  (coverage_pcts_bounded []).2.2.2.2 rfl

/-- C4 counterexample: the percentages returned by
`calculate_coverage_metrics` are NOT rounded to one decimal place (3 images,
1 with alt text gives `100/3`, not `33.3`), and the filename count follows
Python truthiness, not "reference non-null": an image whose
`applied_filename_template` is the empty string is NOT counted, so the
returned percentage differs from the rounded non-null formula. -/
theorem coverage_rounding_cx :
    ((calculate_coverage_metrics
        [{ id := "p", title := none, description := "", vendor := none,
           type := none, tags := none, store := none, skus := none,
           variants := [],
           images :=
             [{ id := "i1", src := "", alt := "x", applied_template := none,
                applied_filename_template := none, filename := none },
              { id := "i2", src := "", alt := "", applied_template := none,
                applied_filename_template := none, filename := none },
              { id := "i3", src := "", alt := "", applied_template := none,
                applied_filename_template := none, filename := none }] }]).2.2.1
      ≠ round1 ((1 : ℚ) / 3 * 100)) ∧
    ((calculate_coverage_metrics
        [{ id := "q", title := none, description := "", vendor := none,
           type := none, tags := none, store := none, skus := none,
           variants := [],
           images :=
             [{ id := "j1", src := "", alt := "", applied_template := none,
                applied_filename_template := some "", filename := none }] }]).2.2.2
      ≠ round1 ((1 : ℚ) / 1 * 100)) := by
  constructor
  · rw [show (calculate_coverage_metrics
        [{ id := "p", title := none, description := "", vendor := none,
           type := none, tags := none, store := none, skus := none,
           variants := [],
           images :=
             [{ id := "i1", src := "", alt := "x", applied_template := none,
                applied_filename_template := none, filename := none },
              { id := "i2", src := "", alt := "", applied_template := none,
                applied_filename_template := none, filename := none },
              { id := "i3", src := "", alt := "", applied_template := none,
                applied_filename_template := none, filename := none }] }]).2.2.1
      = (1 : ℚ) / 3 * 100 by
        norm_num [calculate_coverage_metrics, coverageStep, truthyStr,
          truthyOptStr, show ("x" : String) ≠ "" from by decide]]
    rw [round1, round_eq]
    norm_num
  · rw [show (calculate_coverage_metrics
        [{ id := "q", title := none, description := "", vendor := none,
           type := none, tags := none, store := none, skus := none,
           variants := [],
           images :=
             [{ id := "j1", src := "", alt := "", applied_template := none,
                applied_filename_template := some "", filename := none }] }]).2.2.2
      = 0 by
        norm_num [calculate_coverage_metrics, coverageStep, truthyStr,
          truthyOptStr]]
    rw [round1, round_eq]
    norm_num

/-- C4 (amended): the aggregator counts total images, images with a
non-empty alt string, and images whose filename-template reference is set to
a non-empty string (Python truthiness — a reference holding the empty string
is not counted); the returned percentages are exactly `count/total*100`
(unrounded; rounding to one decimal place happens only in the display
layer), and exactly `0` when the total is `0`. -/
theorem coverage_metrics_exact (products : List Product) :
    (calculate_coverage_metrics products).2.1 =
      (products.flatMap Product.images).length ∧
    (calculate_coverage_metrics products).1 =
      (products.flatMap Product.images).countP (fun im => im.alt ≠ "") ∧
    (calculate_coverage_metrics products).2.2.1 =
      (if (products.flatMap Product.images).length = 0 then 0 else
        ((products.flatMap Product.images).countP (fun im => im.alt ≠ "") : ℚ) /
          ((products.flatMap Product.images).length : ℚ) * 100) ∧
    (calculate_coverage_metrics products).2.2.2 =
      (if (products.flatMap Product.images).length = 0 then 0 else
        ((products.flatMap Product.images).countP
            (fun im => im.applied_filename_template ≠ none ∧
              im.applied_filename_template ≠ some "") : ℚ) /
          ((products.flatMap Product.images).length : ℚ) * 100) := by
  have hc := coverage_counts products
  have halt : (products.flatMap Product.images).countP
        (fun im => truthyStr im.alt) =
      (products.flatMap Product.images).countP (fun im => im.alt ≠ "") := by
    apply List.countP_congr
    intro im _
    simp [truthyStr]
  have hfn : (products.flatMap Product.images).countP
        (fun im => truthyOptStr im.applied_filename_template) =
      (products.flatMap Product.images).countP
        (fun im => im.applied_filename_template ≠ none ∧
          im.applied_filename_template ≠ some "") := by
    apply List.countP_congr
    intro im _
    cases him : im.applied_filename_template with
    | none => simp [truthyOptStr]
    | some s => by_cases hs : s = "" <;> simp [truthyOptStr, hs]
  simp only [calculate_coverage_metrics, hc, halt, hfn]
  by_cases hz : (products.flatMap Product.images).length = 0
  · have hnpos : ¬ 0 < (products.flatMap Product.images).length := by omega
    simp only [if_neg hnpos, if_pos hz]
    simp
  · have hpos : 0 < (products.flatMap Product.images).length :=
      Nat.pos_of_ne_zero hz
    simp only [if_pos hpos, if_neg hz]
    simp

/- ==================================================================
Claim C2: totality of the filename-apply path
================================================================== -/

/-- C2 (code-bug evidence): the filename apply path cannot run at all —
src/streamlit_app.py imports `generate_unique_filename` (called by
`apply_filename_template_to_image` at line 268), `update_image_filename`
(called at line 277) and `fetch_selected_products` from `shopify_api`, but
none of the three is defined anywhere in the repository, so the
module-level import raises an ImportError fatal to the process. -/
theorem filename_apply_imports_undefined :
    "generate_unique_filename" ∈ streamlitImportsFromShopifyApi ∧
    "generate_unique_filename" ∉ shopifyApiDefinedNames ∧
    "update_image_filename" ∈ streamlitImportsFromShopifyApi ∧
    "update_image_filename" ∉ shopifyApiDefinedNames ∧
    "fetch_selected_products" ∈ streamlitImportsFromShopifyApi ∧
    "fetch_selected_products" ∉ shopifyApiDefinedNames := by
  decide

/- ==================================================================
Claim C9: the {sku} placeholder on fetched entities
================================================================== -/

/-- C9 (code-bug evidence): every product built by `fetch_products` carries
no `skus` key (the GraphQL query does not even request a variant `sku`
field), so the `{sku}` placeholder resolves to the empty string for every
fetched entity, in both descriptive and filename mode — never to the
variant SKUs joined with comma-space. -/
theorem fetched_products_have_no_skus (pid ptitle : String)
    (pdescription : Option String) (pvendor pproductType : String)
    (ptags : List String) (variantNodes : List FetchedVariant)
    (imageNodes : List FetchedImage) (i : Nat) (r : String) :
    (mkFetchedProduct pid ptitle pdescription pvendor pproductType ptags
        variantNodes imageNodes).skus = none ∧
    (previewVars (mkFetchedProduct pid ptitle pdescription pvendor
        pproductType ptags variantNodes imageNodes) i r).lookup "{sku}" =
      some "" ∧
    (filenameVars (mkFetchedProduct pid ptitle pdescription pvendor
        pproductType ptags variantNodes imageNodes) i r).lookup "{sku}" =
      some "" ∧
    "sku" ∉ variantQueryFields :=
  ⟨rfl, rfl, rfl, by decide⟩

/- ==================================================================
Claim C5: filename-mode normalization
================================================================== -/

/-- C5 counterexample: in filename mode the substituted value is NOT always
the descriptive-mode value normalized by whitespace→hyphen + lower-casing:
`{tags}` is joined with a bare hyphen (code gives `summer-casual`, the
normalized comma-space join would be `summer,-casual`), and only the space
character is replaced in scalar fields (a tab in the title survives where
the claimed whitespace normalization would turn it into a hyphen). -/
theorem filename_mode_normalization_cx :
    ((filenameVars
        { id := "p", title := some "a\tb", description := "", vendor := none,
          type := none, tags := some ["summer", "casual"], store := none,
          skus := none, variants := [], images := [] } 0 "abcd").lookup "{tags}"
      ≠ (((previewVars
        { id := "p", title := some "a\tb", description := "", vendor := none,
          type := none, tags := some ["summer", "casual"], store := none,
          skus := none, variants := [], images := [] } 0 "abcd").lookup
            "{tags}").map specNormalize)) ∧
    ((filenameVars
        { id := "p", title := some "a\tb", description := "", vendor := none,
          type := none, tags := some ["summer", "casual"], store := none,
          skus := none, variants := [], images := [] } 0 "abcd").lookup "{title}"
      ≠ (((previewVars
        { id := "p", title := some "a\tb", description := "", vendor := none,
          type := none, tags := some ["summer", "casual"], store := none,
          skus := none, variants := [], images := [] } 0 "abcd").lookup
            "{title}").map specNormalize)) := by
  constructor <;> decide

/-- C5 (amended): in filename mode the scalar placeholders `{title}`,
`{vendor}`, `{type}`, `{store}`, `{brand}`, `{category}` substitute the
descriptive-mode value with each SPACE character replaced by a hyphen and
then lower-cased; `{tags}` substitutes the tags joined with a bare hyphen
then lower-cased (not the normalized comma-space join); `{sku}` substitutes
the SKUs joined with a bare hyphen with case preserved; `{color}`,
`{index}` and `{id}` substitute exactly the descriptive-mode values; and
the template's literal non-placeholder text passes through substitution
unchanged. -/
theorem filename_mode_values (p : Product) (i : Nat) (r : String) :
    (filenameVars p i r).lookup "{title}" =
      ((previewVars p i r).lookup "{title}").map spaceNormalize ∧
    (filenameVars p i r).lookup "{vendor}" =
      ((previewVars p i r).lookup "{vendor}").map spaceNormalize ∧
    (filenameVars p i r).lookup "{type}" =
      ((previewVars p i r).lookup "{type}").map spaceNormalize ∧
    (filenameVars p i r).lookup "{store}" =
      ((previewVars p i r).lookup "{store}").map spaceNormalize ∧
    (filenameVars p i r).lookup "{brand}" =
      ((previewVars p i r).lookup "{brand}").map spaceNormalize ∧
    (filenameVars p i r).lookup "{category}" =
      ((previewVars p i r).lookup "{category}").map spaceNormalize ∧
    (filenameVars p i r).lookup "{tags}" =
      some (pyLower (joinWith "-" (getTags p))) ∧
    (∀ l, p.skus = some l →
      (filenameVars p i r).lookup "{sku}" = some (joinWith "-" l) ∧
      (previewVars p i r).lookup "{sku}" = some (joinWith ", " l)) ∧
    (p.skus = none →
      (filenameVars p i r).lookup "{sku}" = some "" ∧
      (previewVars p i r).lookup "{sku}" = some "") ∧
    (filenameVars p i r).lookup "{color}" =
      (previewVars p i r).lookup "{color}" ∧
    (filenameVars p i r).lookup "{index}" =
      (previewVars p i r).lookup "{index}" ∧
    (filenameVars p i r).lookup "{id}" = (previewVars p i r).lookup "{id}" ∧
    (∀ t : String, (∀ kv ∈ filenameVars p i r,
        occursIn kv.1.data t.data = false) →
      substitute (filenameVars p i r) t = t) := by
  have hskuF : (filenameVars p i r).lookup "{sku}" = some (skuFilename p) := rfl
  have hskuD : (previewVars p i r).lookup "{sku}" = some (skuDescriptive p) := rfl
  refine ⟨rfl, rfl, rfl, rfl, rfl, rfl, rfl, ?_, ?_, rfl, rfl, rfl, ?_⟩
  · intro l hl
    rw [hskuF, hskuD]
    simp [skuFilename, skuDescriptive, hl]
  · intro hl
    rw [hskuF, hskuD]
    simp [skuFilename, skuDescriptive, hl]
  · intro t ht
    exact substitute_no_placeholder (filenameVars p i r) t ht

/-- Witness for C5 (amended) at a concrete input: skus present and a
placeholder-free literal template. -/
theorem filename_mode_values_witness :
    (filenameVars
        { id := "p", title := some "Hat", description := "", vendor := none,
          type := none, tags := none, store := none, skus := some ["A B", "C"],
          variants := [], images := [] } 0 "abcd").lookup "{sku}" =
      some (joinWith "-" ["A B", "C"]) ∧
    substitute (filenameVars
        { id := "p", title := some "Hat", description := "", vendor := none,
          type := none, tags := none, store := none, skus := some ["A B", "C"],
          variants := [], images := [] } 0 "abcd") "plain.jpg" = "plain.jpg" := by
  have h := filename_mode_values
    { id := "p", title := some "Hat", description := "", vendor := none,
      type := none, tags := none, store := none, skus := some ["A B", "C"],
      variants := [], images := [] } 0 "abcd"
  obtain ⟨h1, h2, h3, h4, h5, h6, h7, h8, h9, h10, h11, h12, h13⟩ := h
  exact ⟨(h8 ["A B", "C"] rfl).1, h13 "plain.jpg" (by decide)⟩

/- ==================================================================
Claim C10: preview / apply substitution equivalence
================================================================== -/

/-- C10 counterexample: even for a template with no `{id}` placeholder, the
two renderers can disagree when drawing independent random tokens, because
sequential replacement lets a substituted field value introduce the `{id}`
token (here the product title is the literal string `{id}`): the apply path
yields its own token `aaaa`, the preview its token `bbbb`. -/
theorem apply_preview_random_cx :
    occursIn "{id}".data "{title}".data = false ∧
    apply_template_to_image [{ id := "t1", name := "n", template := "{title}" }]
        { id := "p", title := some "{id}", description := "", vendor := none,
          type := none, tags := none, store := none, skus := none,
          variants := [],
          images := [{ id := "img1", src := "", alt := "",
                       applied_template := none,
                       applied_filename_template := none,
                       filename := none }] } "img1" "t1" "aaaa"
      ≠ preview_template "{title}"
        { id := "p", title := some "{id}", description := "", vendor := none,
          type := none, tags := none, store := none, skus := none,
          variants := [],
          images := [{ id := "img1", src := "", alt := "",
                       applied_template := none,
                       applied_filename_template := none,
                       filename := none }] } 0 "bbbb" := by
  constructor <;> decide

/-- C10 (amended): the apply-path alt-text renderer and the preview renderer
are the same substitution — for any template found in the pool and any image
whose id first occurs at index `i`, applying with a given random token
equals previewing at index `i` with that SAME token. -/
theorem apply_matches_preview (templates : List Template) (p : Product)
    (tid : String) (tmpl : Template) (imgId : String) (i : Nat) (r : String)
    (hfind : templates.find? (fun t => t.id == tid) = some tmpl)
    (hidx : p.images.findIdx? (fun img => img.id == imgId) = some i) :
    apply_template_to_image templates p imgId tid r =
      preview_template tmpl.template p i r := by
  unfold apply_template_to_image imageIndexOf
  rw [hfind, hidx]
  rfl

/-- Witness for C10 (amended) at a concrete input. -/
theorem apply_matches_preview_witness :
    apply_template_to_image [{ id := "t1", name := "n", template := "{title} x" }]
        { id := "p", title := some "Shirt", description := "", vendor := none,
          type := none, tags := none, store := none, skus := none,
          variants := [],
          images := [{ id := "img1", src := "", alt := "",
                       applied_template := none,
                       applied_filename_template := none,
                       filename := none }] } "img1" "t1" "aaaa"
      = preview_template "{title} x"
        { id := "p", title := some "Shirt", description := "", vendor := none,
          type := none, tags := none, store := none, skus := none,
          variants := [],
          images := [{ id := "img1", src := "", alt := "",
                       applied_template := none,
                       applied_filename_template := none,
                       filename := none }] } 0 "aaaa" :=
  apply_matches_preview [{ id := "t1", name := "n", template := "{title} x" }]
    { id := "p", title := some "Shirt", description := "", vendor := none,
      type := none, tags := none, store := none, skus := none,
      variants := [],
      images := [{ id := "img1", src := "", alt := "",
                   applied_template := none,
                   applied_filename_template := none,
                   filename := none }] }
    "t1" { id := "t1", name := "n", template := "{title} x" } "img1" 0 "aaaa"
    (by decide) (by decide)

end Shopify
